import Mathlib

/-!
Shallow embedding of the django_binance_trader trading core
(src/trading/enums.py, src/trading/models.py, src/trading/exchanges/binance.py)
and proofs about the claims of its specification.

Conventions of the embedding:
* Python `Decimal` values are modelled as exact rationals (ℚ).  A `Decimal`'s
  exponent (its number of decimal places), which `Decimal.quantize` keys on,
  is carried separately where it matters (the `*_step_dp` fields below).
* Django model instances are plain records; nullable columns are `Option`.
* The database is a single stored record (`Option` of the record type); the
  overridden `save` methods become functions from (db, instance) to
  (result, new db).
* Python exceptions become `Except` errors: `ValidationError` from the data
  model, the exchange error taxonomy, and runtime errors (attribute access
  on `None`, arithmetic with `None`).
* A Python method that can fall off the end of its body (returning `None`)
  returns `Option` of its nominal result, `none` marking the fall-through.
-/

namespace DjangoBinanceTrader

/-- OrderState from src/trading/enums.py (numeric values 1..6 elided; the
variant set and the terminal subset are what the code uses). -/
inductive OrderState where
  | PENDING
  | PLACED
  | FILLING
  | COMPLETED
  | CANCELLED
  | CANCELLED_PARTIAL
deriving DecidableEq, Repr

/-- ORDER_STATE_TERMINAL_VALUES from src/trading/enums.py. -/
def ORDER_STATE_TERMINAL_VALUES : List OrderState :=
  [.COMPLETED, .CANCELLED, .CANCELLED_PARTIAL]

/-- OrderSide from src/trading/enums.py. -/
inductive OrderSide where
  | BUY
  | SELL
deriving DecidableEq, Repr

/-- Django ValidationError (all model-level guards raise it). -/
inductive VError where
  | validation
deriving DecidableEq, Repr

/-- Python runtime errors that the partial methods of models.py can hit:
attribute access on None, and arithmetic on None. -/
inductive RunError where
  | attributeErrorNone
  | typeErrorNone
deriving DecidableEq, Repr

/-- Order record (src/trading/models.py, class Order): the persisted columns
the claims depend on.  `price` and `quantity_filled` are nullable. -/
structure OrderRec where
  side : OrderSide
  price : Option ℚ
  quantity : ℚ
  quantity_filled : Option ℚ
  status : OrderState
  time_closed : Option ℚ
deriving DecidableEq, Repr

/-- Order.is_closed: status is one of the terminal values. -/
def OrderRec.is_closed (o : OrderRec) : Bool :=
  decide (o.status ∈ ORDER_STATE_TERMINAL_VALUES)

/-- TradingSession record (src/trading/models.py, class TradingSession). -/
structure TradingSessionRec where
  symbol : String
  time_opened : Option ℚ
  time_closed : Option ℚ
deriving DecidableEq, Repr

/-- TradingSession.is_open: time_closed is null. -/
def TradingSessionRec.is_open (s : TradingSessionRec) : Bool :=
  decide (s.time_closed = none)

/-- TradingSession.save against a stored copy of the record: an edit of a
record whose stored copy is closed raises ValidationError and leaves the
stored record unchanged; otherwise the instance is persisted. -/
def TradingSessionRec.saveDb (db : Option TradingSessionRec) (self : TradingSessionRec) :
    Except VError Unit × Option TradingSessionRec :=
  match db with
  | none => (.ok (), some self)
  | some old_self =>
    if old_self.is_open then (.ok (), some self)
    else (.error .validation, some old_self)

/-- Errors that Order.save can raise.  Order declares only the custom
manager `active_objects`, and a Django model with any custom manager gets no
auto-generated default `objects` manager, so the edit path's
`type(self).objects` lookup raises AttributeError; `validation` is the error
the guard after that lookup would raise if it were reachable. -/
inductive OrderSaveError where
  | attributeErrorNoObjects
  | validation
deriving DecidableEq, Repr

/-- Order.save against a stored copy of the record: a first save (no pk)
persists the instance; an edit starts with `old_self =
type(self).objects.get(pk=self.pk)`, which raises AttributeError because
Order has no `objects` manager (only `active_objects` is declared), before
the is_closed guard can run — so every edit-save fails and leaves the
stored record unchanged, and the ValidationError guard and the time_closed
stamping further down the method are unreachable. -/
def OrderRec.saveDb (_now : ℚ) (db : Option OrderRec) (self : OrderRec) :
    Except OrderSaveError Unit × Option OrderRec :=
  match db with
  | none => (.ok (), some self)
  | some old_self => (.error .attributeErrorNoObjects, some old_self)

/-- Value held by BuySellPair.trading_session once `BuySellPair.open` ran:
the source rebinds its local variable `session` to the freshly constructed
pair (`session = cls()`) before executing `session.trading_session = session`,
so the field receives the pair itself, not the TradingSession argument.
`pairSelf` marks that self-assignment. -/
inductive SessionField where
  | pairSelf
  | ref (s : TradingSessionRec)
deriving DecidableEq, Repr

/-- BuySellPair record (src/trading/models.py, class BuySellPair). -/
structure BuySellPair where
  trading_session : SessionField
  first_order : OrderRec
  second_order : Option OrderRec
deriving DecidableEq, Repr

/-- BuySellPair.open (named open_pair here because `open` is a Lean keyword).
Checks that the session is open and the order PENDING, then builds and saves
the pair.  Line-for-line from the source: after the two guards the code runs
`session = cls(); session.trading_session = session; session._first_order =
order; session.save(); return session`, so the stored session reference is
the new pair itself (SessionField.pairSelf), never the `session` argument. -/
def BuySellPair.open_pair (session : TradingSessionRec) (order : OrderRec) :
    Except VError BuySellPair :=
  if ¬ session.is_open then .error .validation
  else if order.status ≠ OrderState.PENDING then .error .validation
  else .ok { trading_session := .pairSelf, first_order := order, second_order := none }

/-- BuySellPair.close: four guards, then sets the second order (in memory). -/
def BuySellPair.close (p : BuySellPair) (order : OrderRec) :
    Except VError BuySellPair :=
  if p.first_order.status = OrderState.CANCELLED then .error .validation
  else if ¬ p.first_order.is_closed then .error .validation
  else if order.is_closed then .error .validation
  else if p.first_order.side = order.side then .error .validation
  else .ok { p with second_order := some order }

/-- BuySellPair.is_closed, faithfully partial: when the first order is
COMPLETED or CANCELLED_PARTIAL the code dereferences `self._second_order`
(AttributeError when it is None) and, when that second order is not closed,
falls off the end of the method (Python returns None, modelled `.ok none`). -/
def BuySellPair.is_closed (p : BuySellPair) : Except RunError (Option Bool) :=
  if p.first_order.status = OrderState.COMPLETED ∨
      p.first_order.status = OrderState.CANCELLED_PARTIAL then
    match p.second_order with
    | none => .error .attributeErrorNone
    | some snd => if snd.is_closed then .ok (some true) else .ok none
  else if p.first_order.status = OrderState.CANCELLED then .ok (some true)
  else .ok (some false)

/-- BuySellPair.profit: guarded by the truthiness of `self.is_closed`; the
arithmetic is the source expression
`second.quantity_filled * second.price / first.quantity_filled * first.price - 1`,
which by Python's left-associative `*`/`/` is ((a·b)/c)·d − 1. -/
def BuySellPair.profit (p : BuySellPair) : Except RunError (Option ℚ) :=
  match p.is_closed with
  | .error e => .error e
  | .ok r =>
    if r = some true then
      match p.second_order with
      | none => .error .attributeErrorNone
      | some snd =>
        match snd.quantity_filled, snd.price,
            p.first_order.quantity_filled, p.first_order.price with
        | some a, some b, some c, some d => .ok (some (a * b / c * d - 1))
        | _, _, _, _ => .error .typeErrorNone
    else .ok none

/-- Formula the specification states for profit:
(closer.quantity_filled × closer.price) / (opener.quantity_filled × opener.price) − 1. -/
def profit_spec (p : BuySellPair) : Option ℚ :=
  match p.second_order with
  | none => none
  | some snd =>
    match snd.quantity_filled, snd.price,
        p.first_order.quantity_filled, p.first_order.price with
    | some a, some b, some c, some d => some (a * b / (c * d) - 1)
    | _, _, _, _ => none

/-- Error taxonomy of src/trading/exchanges/exceptions.py (the kinds the
embedded operations can raise). -/
inductive ExchangeError where
  | orderPriceInvalid
  | lotSizeInvalid
  | excessiveRoundingError
  | apiError
  | unknownSymbol
deriving DecidableEq, Repr

/-- Banker's rounding of a rational to the nearest integer, ties to even:
the rounding mode (ROUND_HALF_EVEN) of Python's default Decimal context,
which `Decimal.quantize` uses in check_price / check_quantity. -/
def roundHalfEven (q : ℚ) : ℤ :=
  let n := ⌊q⌋
  let f := q - n
  if f < 1/2 then n
  else if 1/2 < f then n + 1
  else if Even n then n else n + 1

/-- Decimal.quantize(step) where the step exponent is -dp: rounds q to dp
decimal places (half-even), i.e. to the nearest multiple of 10^(-dp).
Note quantize keys on the step's EXPONENT only, not its numeric value. -/
def quantize (q : ℚ) (dp : ℕ) : ℚ :=
  (roundHalfEven (q * 10 ^ dp) : ℚ) / 10 ^ dp

/-- BinanceSymbol (src/trading/exchanges/binance.py): per-symbol metadata.
Each step is carried both as its numeric value (`price_step`,
`quantity_step`) and as its number of decimal places after the
`.rstrip('0').rstrip('.')` normalisation in `from_dict` (`price_step_dp`,
`quantity_step_dp`), since Decimal.quantize uses only the exponent. -/
structure BinanceSymbol where
  min_price : ℚ
  max_price : ℚ
  price_step : ℚ
  price_step_dp : ℕ
  min_quantity : ℚ
  max_quantity : ℚ
  quantity_step : ℚ
  quantity_step_dp : ℕ
  min_value : ℚ
  trading_available : Bool
deriving DecidableEq, Repr

/-- BinanceExchange.check_price for a symbol with known metadata.
`maxRoundingError` is settings.TRADING_MAXIMUM_ROUNDING_ERROR. -/
def check_price (symbol_info : BinanceSymbol) (maxRoundingError : ℚ) (price : ℚ) :
    Except ExchangeError ℚ :=
  if price < symbol_info.min_price then .error .orderPriceInvalid
  else if symbol_info.max_price < price then .error .orderPriceInvalid
  else
    let rounded := quantize price symbol_info.price_step_dp
    let rounding_error := |rounded - price| / price
    if maxRoundingError ≤ rounding_error then .error .excessiveRoundingError
    else .ok rounded

/-- BinanceExchange.check_quantity for a symbol with known metadata. -/
def check_quantity (symbol_info : BinanceSymbol) (maxRoundingError : ℚ) (quantity : ℚ) :
    Except ExchangeError ℚ :=
  if quantity < symbol_info.min_quantity then .error .lotSizeInvalid
  else if symbol_info.max_quantity < quantity then .error .lotSizeInvalid
  else
    let rounded := quantize quantity symbol_info.quantity_step_dp
    let rounding_error := |rounded - quantity| / quantity
    if maxRoundingError ≤ rounding_error then .error .excessiveRoundingError
    else .ok rounded

/-- Multiple of `step` nearest to `q`, ties half-even: the rounding the
specification describes ("round to the nearest multiple of the step size"). -/
def nearestStepMultiple (step q : ℚ) : ℚ :=
  step * roundHalfEven (q / step)

/-- ExchangeOrderStatus (src/trading/exchanges/exchange_base.py). -/
structure ExchangeOrderStatus where
  price : ℚ
  quantity : ℚ
  quantity_filled : ℚ
  status : OrderState
deriving DecidableEq, Repr

/-- Fields of the Binance GET order response that get_order_status reads. -/
structure BinanceOrderResponse where
  price : ℚ
  origQty : ℚ
  executedQty : ℚ
  status : String
deriving DecidableEq, Repr

/-- BinanceExchange.get_order_status, venue response already fetched:
maps the venue status vocabulary onto OrderState, disambiguating a
cancel-after-partial-fill via `last_state`, and raises APIError on any
unknown venue status string. -/
def get_order_status (response : BinanceOrderResponse) (last_state : OrderState) :
    Except ExchangeError ExchangeOrderStatus :=
  let mk := fun (st : OrderState) =>
    Except.ok (ε := ExchangeError)
      { price := response.price, quantity := response.origQty,
        quantity_filled := response.executedQty, status := st }
  if response.status = "NEW" then mk .PLACED
  else if response.status = "PARTIALLY_FILLED" then mk .FILLING
  else if response.status = "FILLED" then mk .COMPLETED
  else if response.status = "CANCELED" ∨ response.status = "EXPIRED" then
    if last_state = OrderState.FILLING then mk .CANCELLED_PARTIAL
    else mk .CANCELLED
  else if response.status = "PENDING_CANCEL" then mk last_state
  else if response.status = "REJECTED" then mk .CANCELLED
  else .error .apiError

/-- How one run of Order.block_until_complete_or_timeout ended. -/
inductive BlockOutcome where
  | completedReturn
  | cancelledReturn
  | raisedValidation
deriving DecidableEq, Repr

/-- Result of a terminated polling loop: how it exited, how many times
Order.cancel was invoked, and the index of the next unconsumed poll. -/
structure BlockResult where
  outcome : BlockOutcome
  cancel_calls : ℕ
  next_poll : ℕ
deriving DecidableEq, Repr

/-- Order.block_until_complete_or_timeout over an abstract venue trace:
`polls i` is the OrderState produced by the i-th update_from_exchange call
and `clock i` the elapsed time measured right after that update.  Each
iteration updates the status, returns if it is COMPLETED, otherwise cancels
and returns once the elapsed time strictly exceeds `timeout`.  The cancel
path is Order.cancel in full: it raises ValidationError when the order's
status is already terminal, otherwise cancels at the venue and reconciles
by one further update_from_exchange call (consuming poll i+1).  `fuel`
bounds the number of iterations modelled; `none` means the loop was still
running after `fuel` iterations. -/
def block_until_complete_or_timeout (polls : ℕ → OrderState) (clock : ℕ → ℚ)
    (timeout : ℚ) : ℕ → ℕ → Option BlockResult
  | 0, _ => none
  | fuel + 1, i =>
    let status := polls i
    if status = OrderState.COMPLETED then
      some { outcome := .completedReturn, cancel_calls := 0, next_poll := i + 1 }
    else if timeout < clock i then
      if decide (status ∈ ORDER_STATE_TERMINAL_VALUES) then
        some { outcome := .raisedValidation, cancel_calls := 1, next_poll := i + 1 }
      else
        some { outcome := .cancelledReturn, cancel_calls := 1, next_poll := i + 2 }
    else
      block_until_complete_or_timeout polls clock timeout fuel (i + 1)

/-! Concrete records used to evaluate the embedded operations. -/

/-- Completed BUY of 1 unit at price 2 (fully filled). -/
def buyFilled : OrderRec :=
  { side := .BUY, price := some 2, quantity := 1, quantity_filled := some 1,
    status := .COMPLETED, time_closed := some 1 }

/-- Completed SELL of 1 unit at price 2 (fully filled). -/
def sellFilled : OrderRec :=
  { side := .SELL, price := some 2, quantity := 1, quantity_filled := some 1,
    status := .COMPLETED, time_closed := some 2 }

/-- Fully closed round-trip pair: buy 1 at 2, sell 1 at 2. -/
def roundTripPair : BuySellPair :=
  { trading_session := .pairSelf, first_order := buyFilled,
    second_order := some sellFilled }

/-- Open trading session on BNBBTC. -/
def openSession : TradingSessionRec :=
  { symbol := "BNBBTC", time_opened := some 0, time_closed := none }

/-- Closed trading session on BNBBTC. -/
def closedSession : TradingSessionRec :=
  { symbol := "BNBBTC", time_opened := some 0, time_closed := some 3 }

/-- Unplaced PENDING BUY order. -/
def pendingBuy : OrderRec :=
  { side := .BUY, price := some (1/10000), quantity := 10, quantity_filled := none,
    status := .PENDING, time_closed := none }

/-- Already-placed BUY order. -/
def placedBuy : OrderRec :=
  { side := .BUY, price := some (1/10000), quantity := 10, quantity_filled := none,
    status := .PLACED, time_closed := none }

/-- Unplaced PENDING SELL order. -/
def pendingSell : OrderRec :=
  { side := .SELL, price := some (1/10000), quantity := 10, quantity_filled := none,
    status := .PENDING, time_closed := none }

/-- Pair whose opener completed but whose closing order was never set. -/
def danglingPair : BuySellPair :=
  { trading_session := .pairSelf, first_order := buyFilled, second_order := none }

/-- Pair whose opener completed and whose closing order is still PLACED. -/
def halfClosedPair : BuySellPair :=
  { trading_session := .pairSelf, first_order := buyFilled,
    second_order := some placedBuy }

/-- Symbol metadata of the specification's scenario: price step 0.0001
(4 decimal places), quantity step 1 (integer quantities). -/
def scenarioSymbol : BinanceSymbol :=
  { min_price := 1/10000, max_price := 1000, price_step := 1/10000, price_step_dp := 4,
    min_quantity := 1, max_quantity := 10 ^ 9, quantity_step := 1, quantity_step_dp := 0,
    min_value := 1/1000, trading_available := true }

/-- Symbol metadata whose price step 0.05 is not a power of ten (exponent -2,
so Decimal.quantize rounds to hundredths, not to multiples of 0.05). -/
def coarseStepSymbol : BinanceSymbol :=
  { min_price := 1/100, max_price := 1000, price_step := 1/20, price_step_dp := 2,
    min_quantity := 1/100, max_quantity := 1000, quantity_step := 1/20, quantity_step_dp := 2,
    min_value := 1/1000, trading_available := true }

/-! Theorems. -/

/-- C1: the claim states profit() returns
(closer.quantity_filled × closer.price) / (opener.quantity_filled × opener.price) − 1.
The source expression `a * b / c * d - 1` is left-associative, so the code
actually computes ((a·b)/c)·d − 1.  On the closed round-trip pair buy 1 at 2 /
sell 1 at 2 the code yields 3 while the claimed formula yields 0 (the pair
broke even), so the code contradicts its own docstring ("e.g. 0.008 means
0.8% profit") and the claim states the intended behaviour. -/
theorem profit_precedence_eval :
    BuySellPair.profit roundTripPair = .ok (some 3) ∧
    profit_spec roundTripPair = some 0 ∧ (3 : ℚ) ≠ 0 := by
  refine ⟨?_, ?_, by norm_num⟩
  · simp [BuySellPair.profit, BuySellPair.is_closed, roundTripPair, buyFilled,
      sellFilled, OrderRec.is_closed, ORDER_STATE_TERMINAL_VALUES]
    norm_num
  · simp [profit_spec, roundTripPair, buyFilled, sellFilled]

/-- C2: the claim states BuySellPair.open(session, order) returns a pair whose
session reference is the provided session.  The source rebinds the local name
`session` to the freshly constructed pair before assigning
`session.trading_session = session`, so on an open session and a PENDING
order the guards pass but the stored reference is the pair itself
(SessionField.pairSelf), never the provided session — while the docstring
says the pair is created "with a provided TradingSession". -/
theorem open_pair_discards_session_eval :
    BuySellPair.open_pair openSession pendingBuy =
      .ok { trading_session := .pairSelf, first_order := pendingBuy, second_order := none } ∧
    SessionField.pairSelf ≠ SessionField.ref openSession ∧
    BuySellPair.open_pair closedSession pendingBuy = .error .validation ∧
    BuySellPair.open_pair openSession placedBuy = .error .validation := by
  refine ⟨?_, by simp, ?_, ?_⟩ <;>
    simp [BuySellPair.open_pair, TradingSessionRec.is_open, openSession,
      closedSession, pendingBuy, placedBuy]

/-- C3: the claim states that editing a stored terminal Order fails with a
validation error.  Order declares only the custom manager `active_objects`,
so Django adds no default `objects` manager and Order.save's edit path
raises AttributeError at `type(self).objects.get(pk=self.pk)` — before the
is_closed guard — for a terminal stored order (and indeed for any stored
order).  The persisted record is still left unchanged.  The TradingSession
half of the claim does hold as stated: `objects = TradingSessionManager()`
exists, and editing a closed stored session raises ValidationError with the
stored record unchanged. -/
theorem order_save_missing_manager_eval :
    OrderRec.saveDb 7 (some buyFilled) pendingBuy =
      (.error .attributeErrorNoObjects, some buyFilled) ∧
    OrderSaveError.attributeErrorNoObjects ≠ OrderSaveError.validation ∧
    OrderRec.saveDb 7 (some pendingBuy) buyFilled =
      (.error .attributeErrorNoObjects, some pendingBuy) ∧
    TradingSessionRec.saveDb (some closedSession) openSession =
      (.error .validation, some closedSession) := by
  refine ⟨by simp [OrderRec.saveDb], by simp, by simp [OrderRec.saveDb], ?_⟩
  simp [TradingSessionRec.saveDb, TradingSessionRec.is_open, closedSession]

/-- C6: BuySellPair.close(order) raises ValidationError when the opener was
plain-CANCELLED, when the opener is not yet terminal, when the candidate is
already terminal, or when the sides coincide; when the opener is COMPLETED
or CANCELLED_PARTIAL, the candidate is not closed and the sides differ, it
succeeds and stores the candidate as the closing order. -/
theorem close_pair_validation :
    ∀ (p : BuySellPair) (order : OrderRec),
      ((p.first_order.status = OrderState.CANCELLED ∨
          p.first_order.is_closed = false ∨
          order.is_closed = true ∨
          p.first_order.side = order.side) →
        BuySellPair.close p order = .error .validation) ∧
      ((p.first_order.status = OrderState.COMPLETED ∨
          p.first_order.status = OrderState.CANCELLED_PARTIAL) →
        order.is_closed = false →
        p.first_order.side ≠ order.side →
        BuySellPair.close p order = .ok { p with second_order := some order }) := by
  intro p order
  constructor
  · intro h
    rcases h with h | h | h | h
    · simp [BuySellPair.close, h]
    · simp only [BuySellPair.close]
      have hnc : ¬ p.first_order.is_closed := by simp [h]
      rcases em (p.first_order.status = OrderState.CANCELLED) with hc | hc
      · simp [hc]
      · simp [hc, hnc]
    · simp [BuySellPair.close, h]
    · simp [BuySellPair.close, h]
  · intro hst hnc hside
    have h1 : p.first_order.status ≠ OrderState.CANCELLED := by
      rcases hst with h | h <;> simp [h]
    have h2 : p.first_order.is_closed = true := by
      rcases hst with h | h <;>
        simp [OrderRec.is_closed, h, ORDER_STATE_TERMINAL_VALUES]
    simp [BuySellPair.close, h1, h2, hnc, hside]

/-- C6 witness: a pair opened by a completed BUY accepts a PENDING SELL as
its closing order, and rejects a same-side or already-closed candidate. -/
theorem close_pair_validation_witness :
    BuySellPair.close danglingPair pendingSell =
      .ok { danglingPair with second_order := some pendingSell } ∧
    BuySellPair.close danglingPair pendingBuy = .error .validation ∧
    BuySellPair.close danglingPair sellFilled = .error .validation :=
  ⟨(close_pair_validation danglingPair pendingSell).2
      (by simp [danglingPair, buyFilled]) (by simp [pendingSell, OrderRec.is_closed,
        ORDER_STATE_TERMINAL_VALUES]) (by simp [danglingPair, buyFilled, pendingSell]),
   (close_pair_validation danglingPair pendingBuy).1
      (by simp [danglingPair, buyFilled, pendingBuy]),
   (close_pair_validation danglingPair sellFilled).1
      (by simp [sellFilled, OrderRec.is_closed, ORDER_STATE_TERMINAL_VALUES])⟩

/-- C7: the venue status vocabulary maps NEW to PLACED, PARTIALLY_FILLED to
FILLING, FILLED to COMPLETED, CANCELED/EXPIRED to CANCELLED_PARTIAL when the
last known state was FILLING and to CANCELLED otherwise, PENDING_CANCEL to
the last known state unchanged, REJECTED to CANCELLED, and any other venue
status value to an APIError (never a defaulted state). -/
theorem get_order_status_mapping :
    ∀ (r : BinanceOrderResponse) (last_state : OrderState),
      (r.status = "NEW" → get_order_status r last_state =
        .ok ⟨r.price, r.origQty, r.executedQty, .PLACED⟩) ∧
      (r.status = "PARTIALLY_FILLED" → get_order_status r last_state =
        .ok ⟨r.price, r.origQty, r.executedQty, .FILLING⟩) ∧
      (r.status = "FILLED" → get_order_status r last_state =
        .ok ⟨r.price, r.origQty, r.executedQty, .COMPLETED⟩) ∧
      (r.status = "CANCELED" ∨ r.status = "EXPIRED" → get_order_status r last_state =
        .ok ⟨r.price, r.origQty, r.executedQty,
          if last_state = OrderState.FILLING then .CANCELLED_PARTIAL else .CANCELLED⟩) ∧
      (r.status = "PENDING_CANCEL" → get_order_status r last_state =
        .ok ⟨r.price, r.origQty, r.executedQty, last_state⟩) ∧
      (r.status = "REJECTED" → get_order_status r last_state =
        .ok ⟨r.price, r.origQty, r.executedQty, .CANCELLED⟩) ∧
      (r.status ∉ ["NEW", "PARTIALLY_FILLED", "FILLED", "CANCELED", "EXPIRED",
          "PENDING_CANCEL", "REJECTED"] →
        get_order_status r last_state = .error .apiError) := by
  intro r last_state
  refine ⟨?_, ?_, ?_, ?_, ?_, ?_, ?_⟩
  · intro h; simp [get_order_status, h]
  · intro h; simp [get_order_status, h]
  · intro h; simp [get_order_status, h]
  · intro h
    rcases h with h | h <;> · simp only [get_order_status, h]
                              split_ifs <;> simp_all
  · intro h; simp [get_order_status, h]
  · intro h; simp [get_order_status, h]
  · intro h
    simp only [List.mem_cons, List.not_mem_nil, or_false, not_or] at h
    obtain ⟨h1, h2, h3, h4, h5, h6, h7⟩ := h
    simp [get_order_status, h1, h2, h3, h4, h5, h6, h7]

/-- C7 witness: concrete response with an unknown venue status raises, and a
CANCELED response after FILLING maps to CANCELLED_PARTIAL. -/
theorem get_order_status_mapping_witness :
    ("NO_SUCH_STATUS" : String) ∉ ["NEW", "PARTIALLY_FILLED", "FILLED", "CANCELED",
        "EXPIRED", "PENDING_CANCEL", "REJECTED"] ∧
    get_order_status ⟨1, 2, 3, "NO_SUCH_STATUS"⟩ OrderState.FILLING = .error .apiError ∧
    get_order_status ⟨1, 2, 3, "CANCELED"⟩ OrderState.FILLING =
      .ok ⟨1, 2, 3, .CANCELLED_PARTIAL⟩ :=
  ⟨by simp,
   (get_order_status_mapping ⟨1, 2, 3, "NO_SUCH_STATUS"⟩ .FILLING).2.2.2.2.2.2 (by simp),
   by
    have := (get_order_status_mapping ⟨1, 2, 3, "CANCELED"⟩ .FILLING).2.2.2.1
      (Or.inl rfl)
    simpa using this⟩

/-- Half-even rounding of an integer is that integer. -/
theorem roundHalfEven_intCast (n : ℤ) : roundHalfEven (n : ℚ) = n := by
  unfold roundHalfEven
  rw [Int.floor_intCast]
  norm_num

/-- Quantizing a value that is exactly representable in dp decimal places
returns it unchanged. -/
theorem quantize_eq_self (q : ℚ) (d : ℕ) (z : ℤ) (h : q * 10 ^ d = (z : ℚ)) :
    quantize q d = q := by
  unfold quantize
  rw [h, roundHalfEven_intCast, ← h]
  rw [mul_div_assoc, div_self (by positivity), mul_one]

/-- Quantizing to d decimal places is exactly half-even rounding to the
nearest multiple of the quantum 10^(-d). -/
theorem quantize_eq_nearestStepMultiple (q : ℚ) (d : ℕ) :
    quantize q d = nearestStepMultiple ((1 : ℚ) / 10 ^ d) q := by
  unfold quantize nearestStepMultiple
  rw [div_div_eq_mul_div, div_one, one_div_mul_eq_div]

/-- C4: for an in-bounds positive price (and quantity) on a symbol with
known metadata, the constraint check returns a rounded value only when the
relative rounding error is strictly below the configured threshold, and
raises ExcessiveRoundingError exactly when the rounding error of the
quantized value reaches the threshold. -/
theorem check_rounding_error_threshold :
    ∀ (s : BinanceSymbol) (maxErr price qty : ℚ),
      s.min_price ≤ price → price ≤ s.max_price → 0 < price →
      s.min_quantity ≤ qty → qty ≤ s.max_quantity → 0 < qty →
      ((∀ v, check_price s maxErr price = .ok v → |v - price| / price < maxErr) ∧
       (check_price s maxErr price = .error .excessiveRoundingError ↔
         maxErr ≤ |quantize price s.price_step_dp - price| / price) ∧
       (∀ v, check_quantity s maxErr qty = .ok v → |v - qty| / qty < maxErr) ∧
       (check_quantity s maxErr qty = .error .excessiveRoundingError ↔
         maxErr ≤ |quantize qty s.quantity_step_dp - qty| / qty)) := by
  intro s maxErr price qty h1 h2 h3 h4 h5 h6
  have hp1 : ¬ price < s.min_price := not_lt.mpr h1
  have hp2 : ¬ s.max_price < price := not_lt.mpr h2
  have hq1 : ¬ qty < s.min_quantity := not_lt.mpr h4
  have hq2 : ¬ s.max_quantity < qty := not_lt.mpr h5
  refine ⟨?_, ?_, ?_, ?_⟩
  · intro v hv
    simp only [check_price, if_neg hp1, if_neg hp2] at hv
    by_cases hc : maxErr ≤ |quantize price s.price_step_dp - price| / price
    · simp [hc] at hv
    · rw [if_neg hc, Except.ok.injEq] at hv
      rw [← hv]
      exact not_le.mp hc
  · simp only [check_price, if_neg hp1, if_neg hp2]
    by_cases hc : maxErr ≤ |quantize price s.price_step_dp - price| / price
    · simp [hc]
    · simp [hc]
  · intro v hv
    simp only [check_quantity, if_neg hq1, if_neg hq2] at hv
    by_cases hc : maxErr ≤ |quantize qty s.quantity_step_dp - qty| / qty
    · simp [hc] at hv
    · rw [if_neg hc, Except.ok.injEq] at hv
      rw [← hv]
      exact not_le.mp hc
  · simp only [check_quantity, if_neg hq1, if_neg hq2]
    by_cases hc : maxErr ≤ |quantize qty s.quantity_step_dp - qty| / qty
    · simp [hc]
    · simp [hc]

/-- C4 witness: the specification's scenario — price 0.00011 on a symbol
with price step 0.0001, threshold 0.1 — rounds with a relative error of
1/11 and is accepted; with threshold 0.01 the same request raises. -/
theorem check_rounding_error_threshold_witness :
    scenarioSymbol.min_price ≤ 11/100000 ∧ (11/100000 : ℚ) ≤ scenarioSymbol.max_price ∧
    (0 : ℚ) < 11/100000 ∧
    scenarioSymbol.min_quantity ≤ 10 ∧ (10 : ℚ) ≤ scenarioSymbol.max_quantity ∧
    (0 : ℚ) < 10 ∧
    ((∀ v, check_price scenarioSymbol (1/10) (11/100000) = .ok v →
        |v - 11/100000| / (11/100000) < 1/10) ∧
     (check_price scenarioSymbol (1/10) (11/100000) = .error .excessiveRoundingError ↔
       (1/10 : ℚ) ≤ |quantize (11/100000) scenarioSymbol.price_step_dp - 11/100000|
         / (11/100000)) ∧
     (∀ v, check_quantity scenarioSymbol (1/10) 10 = .ok v → |v - 10| / 10 < 1/10) ∧
     (check_quantity scenarioSymbol (1/10) 10 = .error .excessiveRoundingError ↔
       (1/10 : ℚ) ≤ |quantize 10 scenarioSymbol.quantity_step_dp - 10| / 10)) ∧
    check_price scenarioSymbol (1/100) (11/100000) = .error .excessiveRoundingError :=
  ⟨by norm_num [scenarioSymbol], by norm_num [scenarioSymbol], by norm_num,
   by norm_num [scenarioSymbol], by norm_num [scenarioSymbol], by norm_num,
   check_rounding_error_threshold scenarioSymbol (1/10) (11/100000) 10
     (by norm_num [scenarioSymbol]) (by norm_num [scenarioSymbol]) (by norm_num)
     (by norm_num [scenarioSymbol]) (by norm_num [scenarioSymbol]) (by norm_num),
   by norm_num [check_price, quantize, roundHalfEven, scenarioSymbol, abs_of_pos]⟩

/-- C5 counterexample: on a symbol whose price step is 0.05 (not a power of
ten), price 0.02 is returned unchanged by check_price — Decimal.quantize
rounds to the step's exponent (hundredths), not to a multiple of the step —
yet the nearest multiple of the 0.05 step to 0.02 is 0, not 0.02. -/
theorem check_price_not_step_multiple_counterexample :
    check_price coarseStepSymbol 1 (1/50) = .ok (1/50) ∧
    nearestStepMultiple coarseStepSymbol.price_step (1/50) = 0 ∧
    (1/50 : ℚ) ≠ 0 := by
  refine ⟨?_, ?_, by norm_num⟩
  · norm_num [check_price, quantize, roundHalfEven, coarseStepSymbol]
  · norm_num [nearestStepMultiple, roundHalfEven, coarseStepSymbol]

/-- C5 amended: on success the constraint check returns the multiple of the
quantum 10^(-d) nearest to the original value, ties half-even, where d is
the decimal exponent of the symbol's step size; this coincides with the
nearest multiple of the step size only when the step is exactly 10^(-d). -/
theorem check_rounds_to_step_exponent :
    ∀ (s : BinanceSymbol) (maxErr x v : ℚ),
      (check_price s maxErr x = .ok v →
        v = nearestStepMultiple ((1 : ℚ) / 10 ^ s.price_step_dp) x) ∧
      (check_quantity s maxErr x = .ok v →
        v = nearestStepMultiple ((1 : ℚ) / 10 ^ s.quantity_step_dp) x) := by
  intro s maxErr x v
  constructor
  · intro h
    simp only [check_price] at h
    split_ifs at h
    rw [Except.ok.injEq] at h
    rw [← h]
    exact quantize_eq_nearestStepMultiple x s.price_step_dp
  · intro h
    simp only [check_quantity] at h
    split_ifs at h
    rw [Except.ok.injEq] at h
    rw [← h]
    exact quantize_eq_nearestStepMultiple x s.quantity_step_dp

/-- C5 amended witness: price 0.00011 on the scenario symbol succeeds with
rounded value 0.0001, which is the nearest multiple of the quantum 10^(-4). -/
theorem check_rounds_to_step_exponent_witness :
    check_price scenarioSymbol (1/10) (11/100000) = .ok (1/10000) ∧
    (1/10000 : ℚ) = nearestStepMultiple ((1 : ℚ) / 10 ^ scenarioSymbol.price_step_dp)
      (11/100000) :=
  have h : check_price scenarioSymbol (1/10) (11/100000) = .ok (1/10000) := by
    norm_num [check_price, quantize, roundHalfEven, scenarioSymbol, abs_of_pos]
  ⟨h, (check_rounds_to_step_exponent scenarioSymbol (1/10) (11/100000) (1/10000)).1 h⟩

/-- C9: a candidate price (or quantity) that is already an exact integer
multiple of the symbol's step size, within bounds, is returned unchanged by
the constraint check (rounding is idempotent on step-aligned values). -/
theorem check_step_aligned_idempotent :
    (∀ (s : BinanceSymbol) (maxErr price : ℚ) (k m : ℤ),
      s.price_step = (m : ℚ) / 10 ^ s.price_step_dp →
      price = (k : ℚ) * s.price_step →
      s.min_price ≤ price → price ≤ s.max_price → 0 < price → 0 < maxErr →
      check_price s maxErr price = .ok price) ∧
    (∀ (s : BinanceSymbol) (maxErr qty : ℚ) (k m : ℤ),
      s.quantity_step = (m : ℚ) / 10 ^ s.quantity_step_dp →
      qty = (k : ℚ) * s.quantity_step →
      s.min_quantity ≤ qty → qty ≤ s.max_quantity → 0 < qty → 0 < maxErr →
      check_quantity s maxErr qty = .ok qty) := by
  constructor
  · intro s maxErr price k m hstep hmul h1 h2 h3 h4
    have hz : price * 10 ^ s.price_step_dp = ((k * m : ℤ) : ℚ) := by
      rw [hmul, hstep]
      push_cast
      field_simp
    have hq : quantize price s.price_step_dp = price :=
      quantize_eq_self price s.price_step_dp (k * m) hz
    simp only [check_price, if_neg (not_lt.mpr h1), if_neg (not_lt.mpr h2), hq]
    rw [if_neg (by simpa using not_le.mpr h4)]
  · intro s maxErr qty k m hstep hmul h1 h2 h3 h4
    have hz : qty * 10 ^ s.quantity_step_dp = ((k * m : ℤ) : ℚ) := by
      rw [hmul, hstep]
      push_cast
      field_simp
    have hq : quantize qty s.quantity_step_dp = qty :=
      quantize_eq_self qty s.quantity_step_dp (k * m) hz
    simp only [check_quantity, if_neg (not_lt.mpr h1), if_neg (not_lt.mpr h2), hq]
    rw [if_neg (by simpa using not_le.mpr h4)]

/-- C9 witness: 0.0002 is twice the 0.0001 price step of the scenario symbol
and is returned unchanged; quantity 10 is ten times the quantity step 1 and
is returned unchanged. -/
theorem check_step_aligned_idempotent_witness :
    check_price scenarioSymbol (1/10) (2/10000) = .ok (2/10000) ∧
    check_quantity scenarioSymbol (1/10) 10 = .ok 10 :=
  ⟨check_step_aligned_idempotent.1 scenarioSymbol (1/10) (2/10000) 2 1
     (by norm_num [scenarioSymbol]) (by norm_num [scenarioSymbol])
     (by norm_num [scenarioSymbol]) (by norm_num [scenarioSymbol])
     (by norm_num) (by norm_num),
   check_step_aligned_idempotent.2 scenarioSymbol (1/10) 10 10 1
     (by norm_num [scenarioSymbol]) (by norm_num [scenarioSymbol])
     (by norm_num [scenarioSymbol]) (by norm_num [scenarioSymbol])
     (by norm_num) (by norm_num)⟩

/-- One loop iteration that neither completes nor times out just advances to
the next poll. -/
theorem block_skip_iteration (polls : ℕ → OrderState) (clock : ℕ → ℚ) (timeout : ℚ)
    (fuel i : ℕ) (h1 : polls i ≠ OrderState.COMPLETED) (h2 : ¬ timeout < clock i) :
    block_until_complete_or_timeout polls clock timeout (fuel + 1) i =
      block_until_complete_or_timeout polls clock timeout fuel (i + 1) := by
  simp [block_until_complete_or_timeout, h1, h2]

/-- Running the loop across d uneventful iterations (no COMPLETED poll, no
timeout) lands at poll index i + d. -/
theorem block_advance (polls : ℕ → OrderState) (clock : ℕ → ℚ) (timeout : ℚ) :
    ∀ (d fuel i : ℕ),
      (∀ j, i ≤ j → j < i + d → polls j ≠ OrderState.COMPLETED ∧ ¬ timeout < clock j) →
      block_until_complete_or_timeout polls clock timeout (fuel + d) i =
        block_until_complete_or_timeout polls clock timeout fuel (i + d) := by
  intro d
  induction d with
  | zero => intro fuel i _; rfl
  | succ d ih =>
    intro fuel i h
    have h0 := h i le_rfl (by omega)
    have e1 : fuel + (d + 1) = (fuel + d) + 1 := by omega
    rw [e1, block_skip_iteration polls clock timeout (fuel + d) i h0.1 h0.2,
      ih fuel (i + 1) (fun j hj1 hj2 => h j (by omega) (by omega)),
      show i + 1 + d = i + (d + 1) by omega]

/-- C8 counterexample to the claim as stated: a venue whose polls always
report CANCELLED (an order cancelled externally) never reports COMPLETED, so
at the first timeout check past the deadline the loop invokes Order.cancel —
but cancel finds the order already terminal and raises ValidationError, so
the method raises instead of returning. -/
theorem block_timeout_terminal_raises_counterexample :
    block_until_complete_or_timeout (fun _ => OrderState.CANCELLED)
        (fun i => (i : ℚ) + 1) (1/2) 2 0 =
      some { outcome := .raisedValidation, cancel_calls := 1, next_poll := 1 } ∧
    BlockOutcome.raisedValidation ≠ BlockOutcome.completedReturn ∧
    BlockOutcome.raisedValidation ≠ BlockOutcome.cancelledReturn := by
  refine ⟨?_, by simp, by simp⟩
  norm_num [block_until_complete_or_timeout, ORDER_STATE_TERMINAL_VALUES]
  decide

/-- C8 amended: (1) if the n-th poll reports COMPLETED and no earlier
iteration saw COMPLETED or a lapsed timeout, the loop returns without ever
calling cancel (n = 0 is the first-poll case); (2) if no poll up to the
first deadline-exceeding check reports COMPLETED, the loop calls cancel
exactly once, at that first check past the deadline, and then returns —
provided the order's status at that point is not already terminal (if it
is, the cancel call itself raises ValidationError instead of returning,
as the counterexample shows). -/
theorem block_polling_loop_behavior :
    ∀ (polls : ℕ → OrderState) (clock : ℕ → ℚ) (timeout : ℚ) (fuel n : ℕ),
      ((∀ i, i < n → polls i ≠ OrderState.COMPLETED ∧ ¬ timeout < clock i) →
        polls n = OrderState.COMPLETED → n < fuel →
        block_until_complete_or_timeout polls clock timeout fuel 0 =
          some { outcome := .completedReturn, cancel_calls := 0, next_poll := n + 1 }) ∧
      ((∀ i, i < n → polls i ≠ OrderState.COMPLETED ∧ ¬ timeout < clock i) →
        polls n ≠ OrderState.COMPLETED → timeout < clock n →
        polls n ∉ ORDER_STATE_TERMINAL_VALUES → n < fuel →
        block_until_complete_or_timeout polls clock timeout fuel 0 =
          some { outcome := .cancelledReturn, cancel_calls := 1, next_poll := n + 2 }) := by
  intro polls clock timeout fuel n
  constructor
  · intro h hn hfuel
    obtain ⟨f, rfl⟩ : ∃ f, fuel = (f + 1) + n := ⟨fuel - n - 1, by omega⟩
    rw [block_advance polls clock timeout n (f + 1) 0
      (fun j hj1 hj2 => h j (by omega))]
    simp [block_until_complete_or_timeout, hn]
  · intro h hn hclock hterm hfuel
    obtain ⟨f, rfl⟩ : ∃ f, fuel = (f + 1) + n := ⟨fuel - n - 1, by omega⟩
    rw [block_advance polls clock timeout n (f + 1) 0
      (fun j hj1 hj2 => h j (by omega))]
    have hterm2 : decide (polls n ∈ ORDER_STATE_TERMINAL_VALUES) = false := by
      simpa using hterm
    simp only [block_until_complete_or_timeout, Nat.zero_add, if_neg hn, if_pos hclock,
      hterm2]
    simp

/-- C8 amended witness: a first-poll COMPLETED returns with no cancel call,
and an order stuck at PLACED is cancelled exactly once at the first check
past the deadline. -/
theorem block_polling_loop_behavior_witness :
    block_until_complete_or_timeout (fun _ => OrderState.COMPLETED) (fun _ => 0)
        (1/2) 1 0 =
      some { outcome := .completedReturn, cancel_calls := 0, next_poll := 1 } ∧
    block_until_complete_or_timeout (fun _ => OrderState.PLACED) (fun i => (i : ℚ))
        (1/2) 3 0 =
      some { outcome := .cancelledReturn, cancel_calls := 1, next_poll := 3 } :=
  ⟨(block_polling_loop_behavior (fun _ => OrderState.COMPLETED) (fun _ => 0)
      (1/2) 1 0).1 (fun i hi => absurd hi (by omega)) rfl (by norm_num),
   (block_polling_loop_behavior (fun _ => OrderState.PLACED) (fun i => (i : ℚ))
      (1/2) 3 1).2
     (fun i hi => by
       have hi0 : i = 0 := by omega
       subst hi0
       exact ⟨by simp, by norm_num⟩)
     (by simp) (by norm_num) (by simp [ORDER_STATE_TERMINAL_VALUES]) (by norm_num)⟩

/-- C10: BuySellPair.is_closed is not a total boolean predicate: when the
opener is COMPLETED or CANCELLED_PARTIAL and the closing order is null it
dereferences None and raises AttributeError instead of returning False, and
when the closing order exists but is not yet closed the method falls off the
end of its body (Python returns None), producing no boolean at all. -/
theorem pair_is_closed_partiality :
    ∀ (p : BuySellPair),
      (p.first_order.status = OrderState.COMPLETED ∨
        p.first_order.status = OrderState.CANCELLED_PARTIAL) →
      (p.second_order = none →
        BuySellPair.is_closed p = .error .attributeErrorNone) ∧
      (∀ o, p.second_order = some o → o.is_closed = false →
        BuySellPair.is_closed p = .ok none ∧
        BuySellPair.is_closed p ≠ .ok (some false)) := by
  intro p hst
  have hd : p.first_order.status = OrderState.COMPLETED ∨
      p.first_order.status = OrderState.CANCELLED_PARTIAL := hst
  constructor
  · intro h2
    simp [BuySellPair.is_closed, hd, h2]
  · intro o h2 hnc
    constructor
    · simp [BuySellPair.is_closed, hd, h2, hnc]
    · simp [BuySellPair.is_closed, hd, h2, hnc]

/-- C10 witness: with a completed opener, a null closing order raises and a
still-PLACED closing order yields the non-boolean fall-through result. -/
theorem pair_is_closed_partiality_witness :
    BuySellPair.is_closed danglingPair = .error .attributeErrorNone ∧
    BuySellPair.is_closed halfClosedPair = .ok none :=
  ⟨((pair_is_closed_partiality danglingPair (by simp [danglingPair, buyFilled])).1 rfl),
   ((pair_is_closed_partiality halfClosedPair (by simp [halfClosedPair, buyFilled])).2
      placedBuy rfl (by simp [placedBuy, OrderRec.is_closed,
        ORDER_STATE_TERMINAL_VALUES])).1⟩

end DjangoBinanceTrader
